import Mathlib

/-!
Verification of the coherent-lasers repository (AllenNeuralDynamics).

Shallow embedding of the core of the repository:
  * src/coherent_lasers/genesis/commands.py and genesis_mx/commands.py
    (the ReadWrite command pairs and the Alarm fault table, identical in
    both packages),
  * src/coherent_lasers/genesis/driver.py (namespace Genesis: the gated
    GenesisMX driver revision),
  * src/coherent_lasers/genesis_mx/driver.py (namespace GenesisMx: the
    second GenesisMX driver revision),
  * src/coherent_lasers/hops/cohrhops.py (namespace Cohrhops: the
    CohrHOPSManager connection manager) and hops/lib2.py (namespace Lib2:
    its second revision).

Modelling conventions:
  * The hardware interface behind one device is a pure oracle
    Hw = String -> Option String: the response to a command string, with
    none standing for an interface failure (a raised HOPSCommandException
    at the device layer).  Reads have no side effect; the write commands a
    driver method issues are returned explicitly as a list of command
    strings.
  * Python float is modelled as Rat; the primitives float(s) and str(v)
    are abstract parameters (parse : String -> Option Rat, with none for a
    ValueError, and render : Rat -> String).
  * Methods that can raise past their own boundary return Except Unit,
    methods that catch everything return Option.
  * Python truthiness is modelled explicitly where the source relies on it
    (walrus-operator conditions on strings, floats and optionals).
  * The CohrHOPS DLL is an abstract state machine HopsIntf over a state
    type, and every manager operation additionally returns the trace of
    DLL calls it made (send / reinit / close / check events).
-/

namespace CoherentLasers

/-- The hardware oracle behind a single device: response to a command
string, none = interface failure (HOPSCommandException). -/
abbrev Hw := String → Option String

/-- Python truthiness of an optional bool (None is falsy). -/
def pyTruthy : Option Bool → Bool
  | some b => b
  | none => false

/-- Python `x and y` on optional bools: returns x when x is falsy, else y. -/
def pyAnd (a b : Option Bool) : Option Bool := if pyTruthy a then b else a

/-- Python str.strip(): removes leading and trailing whitespace. -/
def pyStrip (s : String) : String :=
  ⟨((s.data.dropWhile Char.isWhitespace).reverse.dropWhile Char.isWhitespace).reverse⟩

/-! ## commands.py (shared between the genesis and genesis_mx packages) -/

/-- A read/write command pair (class ReadWrite in commands.py). -/
structure ReadWrite where
  read_cmd : String
  write_cmd : String
deriving DecidableEq

/-- ReadWrite.read: the read command string. -/
def ReadWrite.read (c : ReadWrite) : String := c.read_cmd

/-- ReadWrite.write: the write command string, f-string concatenation of
the write template and the rendered value. -/
def ReadWrite.write (c : ReadWrite) (value : String) : String := c.write_cmd ++ value

namespace ReadWriteCmd

def MODE : ReadWrite := ⟨"?CMODE", "CMODECMD="⟩

def POWER_SETPOINT : ReadWrite := ⟨"?PCMD", "PCMD="⟩

def ANALOG_INPUT : ReadWrite := ⟨"?ANA", "ANACMD="⟩

def REMOTE_CONTROL : ReadWrite := ⟨"?REM", "REM="⟩

def SOFTWARE_SWITCH : ReadWrite := ⟨"?KSWCMD", "KSWCMD="⟩

end ReadWriteCmd

/-- The Alarm enum of commands.py: each member carries a hex code. -/
inductive Alarm
  | NO_FAULT
  | LASER_OVER_TEMPERATURE
  | LASER_UNDER_TEMPERATURE
  | OVER_CURRENT
  | UNDER_CURRENT
  | INTERLOCK_OPEN
  | COOLANT_FLOW_LOW
  | POWER_SUPPLY_FAILURE
  | LASER_DIODE_FAILURE
  | TEC_FAILURE
  | LASER_HEAD_OVER_TEMPERATURE
  | LASER_HEAD_UNDER_TEMPERATURE
  | SHG_HEATER_OVER_TEMPERATURE
  | SHG_HEATER_UNDER_TEMPERATURE
  | BRF_HEATER_OVER_TEMPERATURE
  | BRF_HEATER_UNDER_TEMPERATURE
  | ETALON_HEATER_OVER_TEMPERATURE
  | ETALON_HEATER_UNDER_TEMPERATURE
deriving DecidableEq

/-- The hex value attached to each Alarm member (fault.value[0]). -/
def Alarm.code : Alarm → Nat
  | .NO_FAULT => 0x0000
  | .LASER_OVER_TEMPERATURE => 0x0001
  | .LASER_UNDER_TEMPERATURE => 0x0002
  | .OVER_CURRENT => 0x0003
  | .UNDER_CURRENT => 0x0004
  | .INTERLOCK_OPEN => 0x0005
  | .COOLANT_FLOW_LOW => 0x0006
  | .POWER_SUPPLY_FAILURE => 0x0007
  | .LASER_DIODE_FAILURE => 0x0008
  | .TEC_FAILURE => 0x0009
  | .LASER_HEAD_OVER_TEMPERATURE => 0x000A
  | .LASER_HEAD_UNDER_TEMPERATURE => 0x000B
  | .SHG_HEATER_OVER_TEMPERATURE => 0x000C
  | .SHG_HEATER_UNDER_TEMPERATURE => 0x000D
  | .BRF_HEATER_OVER_TEMPERATURE => 0x000E
  | .BRF_HEATER_UNDER_TEMPERATURE => 0x000F
  | .ETALON_HEATER_OVER_TEMPERATURE => 0x0010
  | .ETALON_HEATER_UNDER_TEMPERATURE => 0x0011

/-- Iteration order of the Alarm enum (for fault in cls). -/
def alarmList : List Alarm :=
  [.NO_FAULT, .LASER_OVER_TEMPERATURE, .LASER_UNDER_TEMPERATURE, .OVER_CURRENT,
   .UNDER_CURRENT, .INTERLOCK_OPEN, .COOLANT_FLOW_LOW, .POWER_SUPPLY_FAILURE,
   .LASER_DIODE_FAILURE, .TEC_FAILURE, .LASER_HEAD_OVER_TEMPERATURE,
   .LASER_HEAD_UNDER_TEMPERATURE, .SHG_HEATER_OVER_TEMPERATURE,
   .SHG_HEATER_UNDER_TEMPERATURE, .BRF_HEATER_OVER_TEMPERATURE,
   .BRF_HEATER_UNDER_TEMPERATURE, .ETALON_HEATER_OVER_TEMPERATURE,
   .ETALON_HEATER_UNDER_TEMPERATURE]

/-- Alarm.from_code: keeps every member whose code has a nonzero bitwise
AND with the given fault code; an empty result becomes [NO_FAULT]. -/
def Alarm.from_code (code : Nat) : List Alarm :=
  let faults := alarmList.filter (fun fault => code &&& fault.code != 0)
  if faults.isEmpty then [Alarm.NO_FAULT] else faults

/-- One hexadecimal digit, as accepted by Python int(s, 16). -/
def hexDigit (c : Char) : Option Nat :=
  if '0' ≤ c ∧ c ≤ '9' then some (c.toNat - '0'.toNat)
  else if 'a' ≤ c ∧ c ≤ 'f' then some (c.toNat - 'a'.toNat + 10)
  else if 'A' ≤ c ∧ c ≤ 'F' then some (c.toNat - 'A'.toNat + 10)
  else none

/-- Python int(s, 16) on a plain unsigned hex string (the device returns
plain hex digits for the fault code); none models a ValueError. -/
def parseHex (s : String) : Option Nat :=
  if s.data.isEmpty then none
  else s.data.foldl
    (fun acc c =>
      match acc, hexDigit c with
      | some a, some d => some (a * 16 + d)
      | _, _ => none)
    (some 0)

/-! ## genesis/driver.py — class GenesisMX (the gated driver revision) -/

namespace Genesis

/-- send_read_command: returns the raw response, none when the
HOPSCommandException was caught. -/
def send_read_command (hw : CoherentLasers.Hw) (cmd : String) : Option String := hw cmd

/-- send_read_bool_command: the trimmed-free comparison response == "1";
none when the exception was caught. -/
def send_read_bool_command (hw : CoherentLasers.Hw) (cmd : String) : Option Bool :=
  (hw cmd).map (fun response => response == "1")

/-- send_read_float_command: caught HOPSCommandException gives None, a
falsy (empty) response falls through to None, float() may raise a
ValueError that is NOT caught here (the .error case). -/
def send_read_float_command (hw : CoherentLasers.Hw) (parse : String → Option ℚ)
    (cmd : String) : Except Unit (Option ℚ) :=
  match hw cmd with
  | none => .ok none
  | some response =>
    if response = "" then .ok none
    else
      match parse response with
      | none => .error ()
      | some v => .ok (some v)

/-- send_write_command: sends cmd.write(value), then reads cmd.read() back
and parses it as a float; the parsed readback is returned even when it
differs from the requested value (the mismatch is only logged); any
exception or parse failure yields None. -/
def send_write_command (hw : CoherentLasers.Hw) (parse : String → Option ℚ)
    (render : ℚ → String) (cmd : CoherentLasers.ReadWrite) (value : ℚ) : Option ℚ :=
  match hw (cmd.write (render value)) with
  | none => none
  | some _ =>
    match hw cmd.read with
    | none => none
    | some response_str =>
      if response_str = "" then none
      else
        match parse response_str with
        | none => none
        | some new_value => some new_value

/-- interlock property: fresh read of ?INT. -/
def interlock (hw : CoherentLasers.Hw) : Option Bool :=
  send_read_bool_command hw "?INT"

/-- key_switch property: fresh read of ?KSW. -/
def key_switch (hw : CoherentLasers.Hw) : Option Bool :=
  send_read_bool_command hw "?KSW"

/-- software_switch property (getter): fresh read of ?KSWCMD. -/
def software_switch (hw : CoherentLasers.Hw) : Option Bool :=
  send_read_bool_command hw "?KSWCMD"

/-- software_switch setter: the list of software-switch write commands it
issues.  The guard is the gate: if not self.interlock or not
self.key_switch (Python truthiness, None counted falsy) it logs and
returns without writing; otherwise it writes KSWCMD=int(state). -/
def software_switch_set_writes (hw : CoherentLasers.Hw) (state : Bool) : List String :=
  if !CoherentLasers.pyTruthy (interlock hw) || !CoherentLasers.pyTruthy (key_switch hw) then []
  else [CoherentLasers.ReadWriteCmd.SOFTWARE_SWITCH.write (if state then "1" else "0")]

/-- enable(): sets software_switch to True through the gated setter. -/
def enable_writes (hw : CoherentLasers.Hw) : List String :=
  software_switch_set_writes hw true

/-- disable(): sets software_switch to False through the gated setter. -/
def disable_writes (hw : CoherentLasers.Hw) : List String :=
  software_switch_set_writes hw false

/-- is_enabled property: self.interlock and self.key_switch and
self.software_switch with Python `and` on optionals (left associated). -/
def is_enabled (hw : CoherentLasers.Hw) : Option Bool :=
  CoherentLasers.pyAnd (CoherentLasers.pyAnd (interlock hw) (key_switch hw)) (software_switch hw)

/-- head_type2unit_factor class attribute. -/
def head_type2unit_factor : List (String × ℚ) := [("MiniX", 1000), ("Mini00", 1)]

/-- unit_factor cached property: dictionary lookup with default 1, and 1
when head_type is falsy (None or the empty string). -/
def unit_factor (head_type : Option String) : ℚ :=
  match head_type with
  | none => 1
  | some ht => if ht = "" then 1 else (head_type2unit_factor.lookup ht).getD 1

/-- power property: native reading of ?P divided by unit_factor; the
walrus condition makes a native reading of 0.0 falsy, giving None. -/
def power (hw : CoherentLasers.Hw) (parse : String → Option ℚ) (uf : ℚ) :
    Except Unit (Option ℚ) :=
  match send_read_float_command hw parse "?P" with
  | .error e => .error e
  | .ok none => .ok none
  | .ok (some p) => if p = 0 then .ok none else .ok (some (p / uf))

/-- power_setpoint property (getter): native reading of ?PCMD divided by
unit_factor, with the same falsy-zero behaviour. -/
def power_setpoint (hw : CoherentLasers.Hw) (parse : String → Option ℚ) (uf : ℚ) :
    Except Unit (Option ℚ) :=
  match send_read_float_command hw parse "?PCMD" with
  | .error e => .error e
  | .ok none => .ok none
  | .ok (some p) => if p = 0 then .ok none else .ok (some (p / uf))

/-- power_setpoint setter: the native value handed to send_write_command
is power_setpoint * unit_factor. -/
def power_setpoint_set_value (value uf : ℚ) : ℚ := value * uf

/-- power_setpoint setter, full pipeline through send_write_command. -/
def power_setpoint_set (hw : CoherentLasers.Hw) (parse : String → Option ℚ)
    (render : ℚ → String) (value uf : ℚ) : Option ℚ :=
  send_write_command hw parse render CoherentLasers.ReadWriteCmd.POWER_SETPOINT (value * uf)

/-- alarms property: reads ?FF, and only when the response is present AND
the parsed hex value is truthy (nonzero) returns Alarm.from_code of it;
otherwise the method falls through and returns None.  A ValueError from
int(res, 16) is not caught (the .error case). -/
def alarms (hw : CoherentLasers.Hw) : Except Unit (Option (List CoherentLasers.Alarm)) :=
  match send_read_command hw "?FF" with
  | none => .ok none
  | some res =>
    match CoherentLasers.parseHex res with
    | none => .error ()
    | some fault_code_value =>
      if fault_code_value ≠ 0 then .ok (some (CoherentLasers.Alarm.from_code fault_code_value))
      else .ok none

end Genesis

/-! ## genesis_mx/driver.py — class GenesisMX (the second driver revision) -/

namespace GenesisMx

/-- The derived enable-loop triple (dataclass GenesisMXEnableLoop). -/
structure GenesisMXEnableLoop where
  software : Bool
  interlock : Bool
  key : Bool
deriving DecidableEq

/-- enabled property: software and interlock and key. -/
def GenesisMXEnableLoop.enabled (l : GenesisMXEnableLoop) : Bool :=
  l.software && l.interlock && l.key

/-- ready property: interlock and key and not software. -/
def GenesisMXEnableLoop.ready (l : GenesisMXEnableLoop) : Bool :=
  l.interlock && l.key && !l.software

/-- send_read_command: hops.send_command(cmd), raising on failure. -/
def send_read_command (hw : Hw) (cmd : String) : Except Unit String :=
  match hw cmd with
  | none => .error ()
  | some s => .ok s

/-- send_read_bool_command: response.strip() in OK, where OK is the set
containing int 1 and str "1" (a str response can only match "1"). -/
def send_read_bool_command (hw : Hw) (cmd : String) : Except Unit Bool :=
  match send_read_command hw cmd with
  | .error e => .error e
  | .ok s => .ok (pyStrip s == "1")

/-- send_read_float_command: float(response.strip()), raising on interface
failure and on a ValueError from float(). -/
def send_read_float_command (hw : Hw) (parse : String → Option ℚ) (cmd : String) :
    Except Unit ℚ :=
  match send_read_command hw cmd with
  | .error e => .error e
  | .ok s =>
    match parse (pyStrip s) with
    | none => .error ()
    | some v => .ok v

/-- software_switch property: read of ?KSWCMD with the HOPSException
caught and turned into False. -/
def software_switch (hw : Hw) : Bool :=
  match send_read_bool_command hw "?KSWCMD" with
  | .ok b => b
  | .error _ => false

/-- interlock property: read of ?INT, exception caught as False. -/
def interlock (hw : Hw) : Bool :=
  match send_read_bool_command hw "?INT" with
  | .ok b => b
  | .error _ => false

/-- key_switch property: read of ?KSW, exception caught as False. -/
def key_switch (hw : Hw) : Bool :=
  match send_read_bool_command hw "?KSW" with
  | .ok b => b
  | .error _ => false

/-- enable_loop property: three fresh reads packed into the triple. -/
def enable_loop (hw : Hw) : GenesisMXEnableLoop :=
  { software := software_switch hw, interlock := interlock hw, key := key_switch hw }

/-- send_write_command: the command string sent to hops, the f-string
concatenation of the write template and the rendered value. -/
def send_write_command_str (cmd : String) (value : String) : String := cmd ++ value

/-- enable(): sends KSWCMD=1 unconditionally (no interlock or key gate in
this revision) and then returns the freshly read enable_loop.  The list
is the software-switch write commands issued by the call. -/
def enable_writes (_hw : Hw) : List String :=
  [send_write_command_str "KSWCMD=" "1"]

/-- disable(): sends KSWCMD=0 unconditionally. -/
def disable_writes (_hw : Hw) : List String :=
  [send_write_command_str "KSWCMD=" "0"]

/-- The _unit_factor field computed in __init__: 1000 when head.type
equals "MiniX", else 1. -/
def unit_factor_of_head_type (t : String) : ℚ := if t = "MiniX" then 1000 else 1

/-- power_mw property (getter): native reading of ?P times _unit_factor. -/
def power_mw (hw : Hw) (parse : String → Option ℚ) (uf : ℚ) : Except Unit ℚ :=
  match send_read_float_command hw parse "?P" with
  | .error e => .error e
  | .ok p => .ok (p * uf)

/-- power_mw setter: the native value written with PCMD= is
value / _unit_factor. -/
def power_mw_set_native (value uf : ℚ) : ℚ := value / uf

/-- power_mw setter: the write commands issued (SET_POWER is PCMD=). -/
def power_mw_set_writes (value uf : ℚ) (render : ℚ → String) : List String :=
  [send_write_command_str "PCMD=" (render (value / uf))]

/-- power_setpoint_mw property: float(send_read_command(?PCMD)) times
_unit_factor, raising on interface or parse failure. -/
def power_setpoint_mw (hw : Hw) (parse : String → Option ℚ) (uf : ℚ) : Except Unit ℚ :=
  match send_read_command hw "?PCMD" with
  | .error e => .error e
  | .ok s =>
    match parse s with
    | none => .error ()
    | some v => .ok (v * uf)

/-- alarms property: int(send_read_command(?FF), 16) decoded through
Alarm.from_code; interface failures and ValueError both raise. -/
def alarms (hw : Hw) : Except Unit (List Alarm) :=
  match send_read_command hw "?FF" with
  | .error e => .error e
  | .ok s =>
    match parseHex s with
    | none => .error ()
    | some fault_code_value => .ok (Alarm.from_code fault_code_value)

end GenesisMx

/-! ## hops/cohrhops.py and hops/lib2.py — CohrHOPSManager

The DLL is an abstract state machine; every manager operation returns its
result, the new manager state and the trace of DLL calls made. -/

/-- One DLL call, for the traces. -/
inductive Ev
  | send (h : Nat) (cmd : String)
  | reinit (h : Nat)
  | closeEv (h : Nat)
  | check
deriving DecidableEq

/-- The CohrHOPS DLL as an oracle over an abstract DLL state:
  * sendC: CohrHOPS_SendCommand, some trimmed response iff res == OK;
  * initOk: CohrHOPS_InitializeHandle, true iff res == OK;
  * closeH: CohrHOPS_Close (the result is ignored on these paths);
  * checkD: CohrHOPS_CheckForDevices, the refreshed connection array
    (the full fixed-size slot array) and its length, none on a non-OK res. -/
structure HopsIntf (σ : Type) where
  sendC : σ → Nat → String → Option String × σ
  initOk : σ → Nat → Bool × σ
  closeH : σ → Nat → σ
  checkD : σ → Option (List Nat × Nat) × σ

/-- Manager state: the DLL state, the _connections HandleCollection (the
raw fixed-size slot array plus its length field) and the _serials dict as
an insertion-ordered association list. -/
structure Mgr (σ : Type) where
  dll : σ
  slots : List Nat
  connLen : Nat
  serials : List (String × Nat)

/-- The two exception kinds raised by the manager: HOPSException (message
only) and HOPSCommandException (command and error code). -/
inductive HopsErr
  | hops (msg : String)
  | cmd (command : String) (code : Int)
deriving DecidableEq

/-- Python dict assignment self._serials[serial] = handle: replace the
value of an existing key in place, else append. -/
def dictInsert (m : List (String × Nat)) (k : String) (v : Nat) : List (String × Nat) :=
  if (m.lookup k).isSome then m.map (fun p => if p.1 = k then (k, v) else p)
  else m ++ [(k, v)]

/-- Python del self._serials[serial]. -/
def dictErase (m : List (String × Nat)) (k : String) : List (String × Nat) :=
  m.filter (fun p => p.1 != k)

namespace Cohrhops

/-- The inner send_cohrhops_command helper: one raw DLL send, some trimmed
response on OK, none otherwise. -/
def send_raw (intf : HopsIntf σ) (dll : σ) (h : Nat) (command : String) :
    Option String × σ × List Ev :=
  match intf.sendC dll h command with
  | (r, d) => (r, d, [Ev.send h command])

/-- _initialize_device: one CohrHOPS_InitializeHandle call; in this
revision a failed init also closes the handle before returning False. -/
def reinit_device (intf : HopsIntf σ) (dll : σ) (h : Nat) : Bool × σ × List Ev :=
  match intf.initOk dll h with
  | (true, d) => (true, d, [Ev.reinit h])
  | (false, d) => (false, intf.closeH d h, [Ev.reinit h, Ev.closeEv h])

/-- _refresh_connected_handles: one CohrHOPS_CheckForDevices call updating
the _connections collection, raising HOPSException on a non-OK result. -/
def refresh_connected_handles (intf : HopsIntf σ) (m : Mgr σ) :
    Except HopsErr Unit × Mgr σ × List Ev :=
  match intf.checkD m.dll with
  | (none, d) => (.error (.hops "Error checking for devices"), { m with dll := d }, [Ev.check])
  | (some (slots1, len1), d) =>
    (.ok (), { m with dll := d, slots := slots1, connLen := len1 }, [Ev.check])

/-- query_serial inside _refresh_serials: a ?HID send against a handle. -/
def query_serial (intf : HopsIntf σ) (dll : σ) (h : Nat) :
    Option String × σ × List Ev :=
  match intf.sendC dll h "?HID" with
  | (r, d) => (r, d, [Ev.send h "?HID"])

/-- The fallback of the walrus condition in _refresh_serials: reinit the
handle and, when that succeeded, query the serial once more; a falsy
serial (absent or empty) marks the handle failed. -/
def refresh_fallback (intf : HopsIntf σ)
    (acc : σ × List (String × Nat) × List Nat × List Ev) (h : Nat) :
    σ × List (String × Nat) × List Nat × List Ev :=
  let (dll, ser, fails, tr) := acc
  match reinit_device intf dll h with
  | (true, dll2, t2) =>
    match query_serial intf dll2 h with
    | (some s, dll3, t3) =>
      if s ≠ "" then (dll3, dictInsert ser s h, fails, tr ++ t2 ++ t3)
      else (dll3, ser, fails ++ [h], tr ++ t2 ++ t3)
    | (none, dll3, t3) => (dll3, ser, fails ++ [h], tr ++ t2 ++ t3)
  | (false, dll2, t2) => (dll2, ser, fails ++ [h], tr ++ t2)

/-- One iteration of the _refresh_serials loop over a handle. -/
def refresh_step (intf : HopsIntf σ)
    (acc : σ × List (String × Nat) × List Nat × List Ev) (h : Nat) :
    σ × List (String × Nat) × List Nat × List Ev :=
  let (dll, ser, fails, tr) := acc
  match query_serial intf dll h with
  | (some s, dll1, t1) =>
    if s ≠ "" then (dll1, dictInsert ser s h, fails, tr ++ t1)
    else refresh_fallback intf (dll1, ser, fails, tr ++ t1) h
  | (none, dll1, t1) => refresh_fallback intf (dll1, ser, fails, tr ++ t1) h

/-- _refresh_serials: iterates over _connections[0..len), accumulating
serial-to-handle assignments, and raises when any handle failed. -/
def refresh_serials (intf : HopsIntf σ) (m : Mgr σ) :
    Except HopsErr Unit × Mgr σ × List Ev :=
  let handles := m.slots.take m.connLen
  match handles.foldl (refresh_step intf) (m.dll, m.serials, [], []) with
  | (dll1, ser1, fails, tr) =>
    if fails.isEmpty then (.ok (), { m with dll := dll1, serials := ser1 }, tr)
    else (.error (.hops "Error getting serial numbers"), { m with dll := dll1, serials := ser1 }, tr)

/-- discover(): refresh the connected handles, raise when none are
connected, then resolve serials; returns the list of known serials. -/
def discover (intf : HopsIntf σ) (m : Mgr σ) :
    Except HopsErr (List String) × Mgr σ × List Ev :=
  match refresh_connected_handles intf m with
  | (.error e, m1, t1) => (.error e, m1, t1)
  | (.ok _, m1, t1) =>
    if m1.connLen = 0 then (.error (.hops "No devices found."), m1, t1)
    else
      match refresh_serials intf m1 with
      | (.error e, m2, t2) => (.error e, m2, t1 ++ t2)
      | (.ok _, m2, t2) => (.ok (m2.serials.map Prod.fst), m2, t1 ++ t2)

/-- send_command(serial, command): discovery when the serial is unknown,
-404 when it is still unknown, then under the lock one raw send, a
one-shot reinit-and-retry on failure, and on final failure the handle is
closed, the serial evicted and -500 raised with the original command. -/
def send_command (intf : HopsIntf σ) (m : Mgr σ) (serial command : String) :
    Except HopsErr String × Mgr σ × List Ev :=
  let (dres, m1, t1) :=
    if (m.serials.lookup serial).isSome then ((.ok () : Except HopsErr Unit), m, ([] : List Ev))
    else
      match discover intf m with
      | (.error e, m1, t1) => (.error e, m1, t1)
      | (.ok _, m1, t1) => (.ok (), m1, t1)
  match dres with
  | .error e => (.error e, m1, t1)
  | .ok _ =>
    match m1.serials.lookup serial with
    | none => (.error (.cmd command (-404)), m1, t1)
    | some h =>
      match send_raw intf m1.dll h command with
      | (some response, dll1, t2) => (.ok response, { m1 with dll := dll1 }, t1 ++ t2)
      | (none, dll1, t2) =>
        match reinit_device intf dll1 h with
        | (true, dll2, t3) =>
          match send_raw intf dll2 h command with
          | (some response, dll3, t4) =>
            (.ok response, { m1 with dll := dll3 }, t1 ++ t2 ++ t3 ++ t4)
          | (none, dll3, t4) =>
            (.error (.cmd command (-500)),
             { m1 with dll := intf.closeH dll3 h, serials := dictErase m1.serials serial },
             t1 ++ t2 ++ t3 ++ t4 ++ [Ev.closeEv h])
        | (false, dll2, t3) =>
          (.error (.cmd command (-500)),
           { m1 with dll := intf.closeH dll2 h, serials := dictErase m1.serials serial },
           t1 ++ t2 ++ t3 ++ [Ev.closeEv h])

/-- close(): for handle in self._connections: self._close(handle).
Iteration over a HandleCollection goes through __getitem__ on the raw
fixed-size ctypes array, so every slot of the array is closed; nothing in
the manager state (_connections, _serials) is modified. -/
def close (intf : HopsIntf σ) (m : Mgr σ) : Mgr σ × List Ev :=
  ({ m with dll := m.slots.foldl intf.closeH m.dll }, m.slots.map Ev.closeEv)

end Cohrhops

namespace Lib2

/-- The inner send_cohrhops_command helper of lib2. -/
def send_raw (intf : HopsIntf σ) (dll : σ) (h : Nat) (command : String) :
    Option String × σ × List Ev :=
  match intf.sendC dll h command with
  | (r, d) => (r, d, [Ev.send h command])

/-- _initialize_device of lib2: one init call, no close on failure. -/
def reinit_device (intf : HopsIntf σ) (dll : σ) (h : Nat) : Bool × σ × List Ev :=
  match intf.initOk dll h with
  | (ok, d) => (ok, d, [Ev.reinit h])

/-- _refresh_connected_handles of lib2 (same as the cohrhops revision). -/
def refresh_connected_handles (intf : HopsIntf σ) (m : Mgr σ) :
    Except HopsErr Unit × Mgr σ × List Ev :=
  match intf.checkD m.dll with
  | (none, d) => (.error (.hops "Error checking for devices"), { m with dll := d }, [Ev.check])
  | (some (slots1, len1), d) =>
    (.ok (), { m with dll := d, slots := slots1, connLen := len1 }, [Ev.check])

/-- query_serial of lib2. -/
def query_serial (intf : HopsIntf σ) (dll : σ) (h : Nat) :
    Option String × σ × List Ev :=
  match intf.sendC dll h "?HID" with
  | (r, d) => (r, d, [Ev.send h "?HID"])

/-- The fallback branch of the _refresh_serials walrus condition in lib2
(reinit without closing on failure, then one more query). -/
def refresh_fallback (intf : HopsIntf σ)
    (acc : σ × List (String × Nat) × List Nat × List Ev) (h : Nat) :
    σ × List (String × Nat) × List Nat × List Ev :=
  let (dll, ser, fails, tr) := acc
  match reinit_device intf dll h with
  | (true, dll2, t2) =>
    match query_serial intf dll2 h with
    | (some s, dll3, t3) =>
      if s ≠ "" then (dll3, dictInsert ser s h, fails, tr ++ t2 ++ t3)
      else (dll3, ser, fails ++ [h], tr ++ t2 ++ t3)
    | (none, dll3, t3) => (dll3, ser, fails ++ [h], tr ++ t2 ++ t3)
  | (false, dll2, t2) => (dll2, ser, fails ++ [h], tr ++ t2)

/-- One iteration of the lib2 _refresh_serials loop. -/
def refresh_step (intf : HopsIntf σ)
    (acc : σ × List (String × Nat) × List Nat × List Ev) (h : Nat) :
    σ × List (String × Nat) × List Nat × List Ev :=
  let (dll, ser, fails, tr) := acc
  match query_serial intf dll h with
  | (some s, dll1, t1) =>
    if s ≠ "" then (dll1, dictInsert ser s h, fails, tr ++ t1)
    else refresh_fallback intf (dll1, ser, fails, tr ++ t1) h
  | (none, dll1, t1) => refresh_fallback intf (dll1, ser, fails, tr ++ t1) h

/-- _refresh_serials of lib2. -/
def refresh_serials (intf : HopsIntf σ) (m : Mgr σ) :
    Except HopsErr Unit × Mgr σ × List Ev :=
  let handles := m.slots.take m.connLen
  match handles.foldl (refresh_step intf) (m.dll, m.serials, [], []) with
  | (dll1, ser1, fails, tr) =>
    if fails.isEmpty then (.ok (), { m with dll := dll1, serials := ser1 }, tr)
    else (.error (.hops "Error getting serial numbers"), { m with dll := dll1, serials := ser1 }, tr)

/-- The discovery retry loop of lib2: up to the given number of attempts,
each attempt one _refresh_connected_handles, stopping as soon as any
handle is connected (the sleeps between attempts are not modelled). -/
def discover_attempts (intf : HopsIntf σ) (m : Mgr σ) :
    Nat → Except HopsErr Unit × Mgr σ × List Ev
  | 0 => (.ok (), m, [])
  | n + 1 =>
    match refresh_connected_handles intf m with
    | (.error e, m1, t1) => (.error e, m1, t1)
    | (.ok _, m1, t1) =>
      if m1.connLen > 0 then (.ok (), m1, t1)
      else
        match discover_attempts intf m1 n with
        | (r, m2, t2) => (r, m2, t1 ++ t2)

/-- discover() of lib2: max_attempts = 5, raising when the connection set
is still empty, then _refresh_serials. -/
def discover (intf : HopsIntf σ) (m : Mgr σ) :
    Except HopsErr (List String) × Mgr σ × List Ev :=
  match discover_attempts intf m 5 with
  | (.error e, m1, t1) => (.error e, m1, t1)
  | (.ok _, m1, t1) =>
    if m1.connLen = 0 then (.error (.hops "No devices found after 5 attempts."), m1, t1)
    else
      match refresh_serials intf m1 with
      | (.error e, m2, t2) => (.error e, m2, t1 ++ t2)
      | (.ok _, m2, t2) => (.ok (m2.serials.map Prod.fst), m2, t1 ++ t2)

/-- The retry half of the lib2 locked block: one reinit and, when it
succeeded, one more raw send whose truthy (nonempty) response is
returned; every other outcome raises -500 with the original command.
Unlike the cohrhops revision nothing is closed and nothing is evicted. -/
def send_retry (intf : HopsIntf σ) (m1 : Mgr σ) (t0 : List Ev) (h : Nat)
    (command : String) (dll1 : σ) :
    Except HopsErr String × Mgr σ × List Ev :=
  match reinit_device intf dll1 h with
  | (true, dll2, t3) =>
    match send_raw intf dll2 h command with
    | (some response, dll3, t4) =>
      if response ≠ "" then (.ok response, { m1 with dll := dll3 }, t0 ++ t3 ++ t4)
      else (.error (.cmd command (-500)), { m1 with dll := dll3 }, t0 ++ t3 ++ t4)
    | (none, dll3, t4) =>
      (.error (.cmd command (-500)), { m1 with dll := dll3 }, t0 ++ t3 ++ t4)
  | (false, dll2, t3) =>
    (.error (.cmd command (-500)), { m1 with dll := dll2 }, t0 ++ t3)

/-- send_command of lib2: same unknown-serial handling as cohrhops, but
the locked block tests the raw response for truthiness (an empty string
counts as a failure) and the final failure path only raises without closing
or evicting the handle or the serial mapping. -/
def send_command (intf : HopsIntf σ) (m : Mgr σ) (serial command : String) :
    Except HopsErr String × Mgr σ × List Ev :=
  let (dres, m1, t1) :=
    if (m.serials.lookup serial).isSome then ((.ok () : Except HopsErr Unit), m, ([] : List Ev))
    else
      match discover intf m with
      | (.error e, m1, t1) => (.error e, m1, t1)
      | (.ok _, m1, t1) => (.ok (), m1, t1)
  match dres with
  | .error e => (.error e, m1, t1)
  | .ok _ =>
    match m1.serials.lookup serial with
    | none => (.error (.cmd command (-404)), m1, t1)
    | some h =>
      match send_raw intf m1.dll h command with
      | (some response, dll1, t2) =>
        if response ≠ "" then (.ok response, { m1 with dll := dll1 }, t1 ++ t2)
        else send_retry intf m1 (t1 ++ t2) h command dll1
      | (none, dll1, t2) => send_retry intf m1 (t1 ++ t2) h command dll1

/-- close() of lib2: closes every slot of the raw connection array, with
no change to the manager state. -/
def close (intf : HopsIntf σ) (m : Mgr σ) : Mgr σ × List Ev :=
  ({ m with dll := m.slots.foldl intf.closeH m.dll }, m.slots.map Ev.closeEv)

end Lib2

/-! ## Concrete hardware oracles and manager states used by the witness
and counterexample theorems of the individual claims. -/

/-- C1: a device whose interlock reads back 0 (open) and everything else 1. -/
def hwC1 : Hw := fun c => if c = "?INT" then some "0" else some "1"

/-- C10: a device whose interlock reads back 0 (open). -/
def hwC10 : Hw := fun c => if c = "?INT" then some "0" else some "1"

/-- C3: a device whose power-setpoint readback is the string 0.5. -/
def hwC3 : Hw := fun c => if c = "?PCMD" then some "0.5" else none

/-- C3: float() on the single readback string used by hwC3. -/
def parseC3 : String → Option ℚ := fun s => if s = "0.5" then some (1 / 2) else none

/-- C4: a device whose fault code reads back 0000. -/
def hwC4 : Hw := fun c => if c = "?FF" then some "0000" else none

/-- C5: a device whose native power reads back 2. -/
def hwC5 : Hw := fun c => if c = "?P" then some "2" else none

/-- C5: float() on the native power string used by hwC5. -/
def parseC5 : String → Option ℚ := fun s => if s = "2" then some 2 else none

/-- C7: a device that acknowledges the write PCMD=5 and reads back 7. -/
def hwC7 : Hw := fun c =>
  if c = "PCMD=5" then some "" else if c = "?PCMD" then some "7" else none

/-- C7: float() on the readback string used by hwC7. -/
def parseC7 : String → Option ℚ := fun s => if s = "7" then some 7 else none

/-- C7: str() rendering of the requested value 5. -/
def renderC7 : ℚ → String := fun _ => "5"

/-- C2: a DLL (state = a call counter) on which every raw send fails and
every handle reinitialization succeeds. -/
def intfC2 : HopsIntf Nat :=
  { sendC := fun s _ _ => (none, s + 1)
    initOk := fun s _ => (true, s)
    closeH := fun s _ => s
    checkD := fun s => (none, s) }

/-- C2: a manager that already knows serial A1 on handle 5. -/
def mgrC2 : Mgr Nat := { dll := 0, slots := [], connLen := 0, serials := [("A1", 5)] }

/-- C6: a DLL that reports one connected handle 7 whose serial is B2. -/
def intfC6 : HopsIntf Nat :=
  { sendC := fun s _ c => (if c = "?HID" then some "B2" else none, s)
    initOk := fun s _ => (true, s)
    closeH := fun s _ => s
    checkD := fun s => (some ([7], 1), s) }

/-- C6: a manager with no known serials. -/
def mgrC6 : Mgr Nat := { dll := 0, slots := [], connLen := 0, serials := [] }

/-- C8: a DLL whose close calls do not change the state. -/
def intfC8 : HopsIntf Nat :=
  { sendC := fun s _ _ => (none, s)
    initOk := fun s _ => (false, s)
    closeH := fun s _ => s
    checkD := fun s => (none, s) }

/-- C8: a manager holding one connection (slot array [5, 0], length 1)
and one serial mapping. -/
def mgrC8 : Mgr Nat := { dll := 0, slots := [5, 0], connLen := 1, serials := [("A1", 5)] }

/-! ## Helper lemmas (shared, not tied to any single claim) -/

theorem pyTruthy_eq_true {o : Option Bool} : pyTruthy o = true ↔ o = some true := by
  cases o with
  | none => simp [pyTruthy]
  | some b => cases b <;> simp [pyTruthy]

theorem pyTruthy_eq_false {o : Option Bool} : pyTruthy o = false ↔ o ≠ some true := by
  cases o with
  | none => simp [pyTruthy]
  | some b => cases b <;> simp [pyTruthy]

theorem pyAnd_eq_some_true {a b : Option Bool} (h : pyAnd a b = some true) :
    pyTruthy a = true ∧ b = some true := by
  unfold pyAnd at h
  by_cases ha : pyTruthy a = true
  · rw [if_pos ha] at h; exact ⟨ha, h⟩
  · rw [if_neg ha] at h
    exact absurd (pyTruthy_eq_true.mpr h) ha

theorem dictErase_lookup (m : List (String × Nat)) (k : String) :
    (dictErase m k).lookup k = none := by
  induction m with
  | nil => rfl
  | cons p t ih =>
    unfold dictErase at ih ⊢
    by_cases hp : p.1 = k
    · simpa [List.filter, hp] using ih
    · simp only [List.filter_cons]
      have hbne : (p.1 != k) = true := by simpa using hp
      rw [if_pos hbne]
      simpa [List.lookup, show (k == p.1) = false by simpa using fun he => hp he.symm] using ih

/-- Discrimination of the events a _refresh_serials call may emit: no
check events and no sends other than ?HID identification reads. -/
def evTame : Ev → Bool
  | .send _ c => c == "?HID"
  | .check => false
  | _ => true

theorem refresh_fallback_tame (intf : HopsIntf σ)
    (acc : σ × List (String × Nat) × List Nat × List Ev) (h : Nat)
    (hacc : acc.2.2.2.all evTame = true) :
    ((Cohrhops.refresh_fallback intf acc h).2.2.2).all evTame = true := by
  obtain ⟨dll, ser, fails, tr⟩ := acc
  rcases hini : intf.initOk dll h with ⟨ok, d⟩
  cases ok with
  | false =>
    simp [Cohrhops.refresh_fallback, Cohrhops.reinit_device, hini, List.all_append, evTame, hacc]
  | true =>
    rcases hq : intf.sendC d h "?HID" with ⟨r, d2⟩
    cases r with
    | none =>
      simp [Cohrhops.refresh_fallback, Cohrhops.reinit_device, Cohrhops.query_serial, hini, hq,
        List.all_append, evTame, hacc]
    | some s =>
      by_cases hs : s = "" <;>
        simp [Cohrhops.refresh_fallback, Cohrhops.reinit_device, Cohrhops.query_serial, hini, hq,
          hs, List.all_append, evTame, hacc]

theorem refresh_step_tame (intf : HopsIntf σ)
    (acc : σ × List (String × Nat) × List Nat × List Ev) (h : Nat)
    (hacc : acc.2.2.2.all evTame = true) :
    ((Cohrhops.refresh_step intf acc h).2.2.2).all evTame = true := by
  obtain ⟨dll, ser, fails, tr⟩ := acc
  have htr : (tr ++ [Ev.send h "?HID"]).all evTame = true := by
    simp [List.all_append, evTame, hacc]
  rcases hq : intf.sendC dll h "?HID" with ⟨r, d1⟩
  cases r with
  | none =>
    have := refresh_fallback_tame intf (d1, ser, fails, tr ++ [Ev.send h "?HID"]) h htr
    simpa [Cohrhops.refresh_step, Cohrhops.query_serial, hq] using this
  | some s =>
    by_cases hs : s = ""
    · have := refresh_fallback_tame intf (d1, ser, fails, tr ++ [Ev.send h "?HID"]) h htr
      simpa [Cohrhops.refresh_step, Cohrhops.query_serial, hq, hs] using this
    · simpa [Cohrhops.refresh_step, Cohrhops.query_serial, hq, hs] using htr

theorem foldl_refresh_tame (intf : HopsIntf σ) (hs : List Nat) :
    ∀ (acc : σ × List (String × Nat) × List Nat × List Ev),
      acc.2.2.2.all evTame = true →
      ((hs.foldl (Cohrhops.refresh_step intf) acc).2.2.2).all evTame = true := by
  induction hs with
  | nil => intro acc h; simpa using h
  | cons a t ih =>
    intro acc h
    exact ih _ (refresh_step_tame intf acc a h)

theorem refresh_serials_tame (intf : HopsIntf σ) (m : Mgr σ) :
    ((Cohrhops.refresh_serials intf m).2.2).all evTame = true := by
  have hfold := foldl_refresh_tame intf (m.slots.take m.connLen)
    (m.dll, m.serials, [], []) (by simp)
  rcases hx : (m.slots.take m.connLen).foldl (Cohrhops.refresh_step intf)
      (m.dll, m.serials, [], []) with ⟨dll1, ser1, fails, tr⟩
  rw [hx] at hfold
  by_cases hf : fails.isEmpty <;>
    simpa [Cohrhops.refresh_serials, hx, hf] using hfold

theorem discover_trace_tame (intf : HopsIntf σ) (m : Mgr σ) :
    ∃ t, (Cohrhops.discover intf m).2.2 = Ev.check :: t ∧ t.all evTame = true := by
  rcases hchk : intf.checkD m.dll with ⟨r, d⟩
  cases r with
  | none =>
    exact ⟨[], by simp [Cohrhops.discover, Cohrhops.refresh_connected_handles, hchk], by simp⟩
  | some p =>
    obtain ⟨slots1, len1⟩ := p
    by_cases hlen : len1 = 0
    · exact ⟨[], by simp [Cohrhops.discover, Cohrhops.refresh_connected_handles, hchk, hlen],
        by simp⟩
    · have htame := refresh_serials_tame intf
        { m with dll := d, slots := slots1, connLen := len1 }
      rcases hrs : Cohrhops.refresh_serials intf
          { m with dll := d, slots := slots1, connLen := len1 } with ⟨res, m2, t2⟩
      rw [hrs] at htame
      refine ⟨t2, ?_, htame⟩
      cases res with
      | error e => simp [Cohrhops.discover, Cohrhops.refresh_connected_handles, hchk, hlen, hrs]
      | ok u => simp [Cohrhops.discover, Cohrhops.refresh_connected_handles, hchk, hlen, hrs]

theorem count_check_of_tame {t : List Ev} (h : t.all evTame = true) :
    t.count Ev.check = 0 := by
  rw [List.count_eq_zero]
  intro hmem
  have := List.all_eq_true.mp h _ hmem
  simp [evTame] at this

theorem send_notin_of_tame {t : List Ev} (h : t.all evTame = true) {h2 : Nat} {c : String}
    (hc : c ≠ "?HID") : Ev.send h2 c ∉ t := by
  intro hmem
  have := List.all_eq_true.mp h _ hmem
  simp [evTame] at this
  exact hc this

/-! ## Claim theorems -/

/-- C9: for every reading of the enable-loop triple the derived
predicates enabled and ready are never both true (enabled needs the
software switch true, ready needs it false), so the derived states
Enabled and Ready are mutually exclusive. -/
theorem c9_enabled_ready_mutually_exclusive :
    ∀ s i k : Bool,
      ((GenesisMx.GenesisMXEnableLoop.mk s i k).enabled &&
        (GenesisMx.GenesisMXEnableLoop.mk s i k).ready) = false := by
  decide

/-- C1 (amended): in the genesis driver revision the software-switch
setter (hence enable()) issues no write unless fresh reads of interlock
and key switch both return true, and the derived is_enabled is some true
only when interlock and key read some true; in the genesis_mx revision
the derived enable_loop.enabled likewise implies interlock and key read
true at the same instant, but its enable() writes unconditionally (see
the counterexample). -/
theorem c1_software_switch_gate :
    (∀ (hw : Hw) (state : Bool),
        ¬(Genesis.interlock hw = some true ∧ Genesis.key_switch hw = some true) →
        Genesis.software_switch_set_writes hw state = [])
    ∧ (∀ hw : Hw, Genesis.is_enabled hw = some true →
        Genesis.interlock hw = some true ∧ Genesis.key_switch hw = some true)
    ∧ (∀ hw : Hw, (GenesisMx.enable_loop hw).enabled = true →
        GenesisMx.interlock hw = true ∧ GenesisMx.key_switch hw = true) := by
  refine ⟨?_, ?_, ?_⟩
  · intro hw state hno
    have hcond : (!pyTruthy (Genesis.interlock hw) || !pyTruthy (Genesis.key_switch hw)) = true := by
      rcases Decidable.em (Genesis.interlock hw = some true) with hil | hil
      · have hks : Genesis.key_switch hw ≠ some true := fun hk => hno ⟨hil, hk⟩
        simp [pyTruthy_eq_false.mpr hks]
      · simp [pyTruthy_eq_false.mpr hil]
    simp [Genesis.software_switch_set_writes, hcond]
  · intro hw h
    unfold Genesis.is_enabled at h
    obtain ⟨h1, _⟩ := pyAnd_eq_some_true h
    obtain ⟨h3, h4⟩ := pyAnd_eq_some_true (pyTruthy_eq_true.mp h1)
    exact ⟨pyTruthy_eq_true.mp h3, h4⟩
  · intro hw h
    simp [GenesisMx.enable_loop, GenesisMx.GenesisMXEnableLoop.enabled] at h
    exact ⟨h.1.2, h.2⟩

/-- C1 witness: on a device whose interlock reads 0, the gated setter of
the genesis revision issues no write. -/
theorem c1_witness : Genesis.software_switch_set_writes hwC1 true = [] :=
  c1_software_switch_gate.1 hwC1 true (by decide)

/-- C1 counterexample: in the genesis_mx revision a call to enable() on a
device whose fresh interlock read reports false still issues the
software-switch write KSWCMD=1, so the claim as stated fails. -/
theorem c1_counterexample :
    GenesisMx.interlock hwC1 = false
    ∧ GenesisMx.enable_writes hwC1 = ["KSWCMD=1"]
    ∧ GenesisMx.enable_writes hwC1 ≠ [] :=
  ⟨by decide, by decide, by decide⟩

/-- C10: in the gated genesis driver revision disable() goes through the
same interlock/key gate as enable(): whenever a fresh interlock or
key-switch read reports false, no software-switch write is issued at
all, so the software switch stays as it was. -/
theorem c10_disable_gated :
    ∀ hw : Hw,
      Genesis.interlock hw = some false ∨ Genesis.key_switch hw = some false →
      Genesis.disable_writes hw = [] := by
  intro hw h
  have hcond : (!pyTruthy (Genesis.interlock hw) || !pyTruthy (Genesis.key_switch hw)) = true := by
    cases h with
    | inl h1 =>
      have : Genesis.interlock hw ≠ some true := by rw [h1]; simp
      simp [pyTruthy_eq_false.mpr this]
    | inr h1 =>
      have : Genesis.key_switch hw ≠ some true := by rw [h1]; simp
      simp [pyTruthy_eq_false.mpr this]
  simp [Genesis.disable_writes, Genesis.software_switch_set_writes, hcond]

/-- C10 witness: concrete device whose interlock reads 0. -/
theorem c10_witness : Genesis.disable_writes hwC10 = [] :=
  c10_disable_gated hwC10 (Or.inl (by decide))

/-- C7: send_write_command issues the write and then the readback read,
and whenever it returns a value that value is the parsed readback (even
when it differs from the requested value), never the request. -/
theorem c7_write_then_verify :
    (∀ (hw : Hw) (parse : String → Option ℚ) (render : ℚ → String)
        (cmd : ReadWrite) (value v : ℚ) (w s : String),
        hw (cmd.write (render value)) = some w → hw cmd.read = some s → s ≠ "" →
        parse s = some v →
        Genesis.send_write_command hw parse render cmd value = some v)
    ∧ (∀ (hw : Hw) (parse : String → Option ℚ) (render : ℚ → String)
        (cmd : ReadWrite) (value r : ℚ),
        Genesis.send_write_command hw parse render cmd value = some r →
        ∃ s, hw cmd.read = some s ∧ parse s = some r) := by
  constructor
  · intro hw parse render cmd value v w s hw1 hr hs hp
    simp [Genesis.send_write_command, hw1, hr, hs, hp]
  · intro hw parse render cmd value r hres
    unfold Genesis.send_write_command at hres
    rcases hwr : hw (cmd.write (render value)) with _ | w <;> rw [hwr] at hres
    · simp at hres
    · rcases hrd : hw cmd.read with _ | s <;> rw [hrd] at hres
      · simp at hres
      · by_cases hs : s = ""
        · simp [hs] at hres
        · simp only [eq_false hs, if_false] at hres
          rcases hp : parse s with _ | nv <;> rw [hp] at hres
          · simp at hres
          · simp only [Option.some.injEq] at hres
            exact ⟨s, rfl, by rw [hp, hres]⟩

/-- C7 witness: requesting 5 while the device reads back 7 returns 7. -/
theorem c7_witness :
    Genesis.send_write_command hwC7 parseC7 renderC7 ReadWriteCmd.POWER_SETPOINT 5 = some 7
    ∧ (7 : ℚ) ≠ 5 :=
  ⟨c7_write_then_verify.1 hwC7 parseC7 renderC7 ReadWriteCmd.POWER_SETPOINT 5 7 "" "7"
      rfl rfl (by decide) rfl,
   by norm_num⟩

/-- C3 (amended): on a MiniX head the genesis_mx revision setter writes
the native value X/1000 and the setpoint getter multiplies the native
reading by 1000, so writing X and reading back the written native value
recovers X exactly; the genesis revision setter instead writes X*1000
and its getter divides by 1000, which also recovers X (the claimed
write-X/1000 direction fails there, see the counterexample). -/
theorem c3_unit_roundtrip :
    (∀ X : ℚ, GenesisMx.power_mw_set_native X (GenesisMx.unit_factor_of_head_type "MiniX")
        = X / 1000)
    ∧ (∀ (X : ℚ) (hw : Hw) (parse : String → Option ℚ) (s : String),
        hw "?PCMD" = some s → parse s = some (X / 1000) →
        GenesisMx.power_setpoint_mw hw parse (GenesisMx.unit_factor_of_head_type "MiniX")
          = .ok X)
    ∧ (∀ (X : ℚ) (hw : Hw) (parse : String → Option ℚ) (s : String),
        X ≠ 0 → hw "?PCMD" = some s → s ≠ "" →
        parse s = some (Genesis.power_setpoint_set_value X (Genesis.unit_factor (some "MiniX"))) →
        Genesis.power_setpoint hw parse (Genesis.unit_factor (some "MiniX"))
          = .ok (some X)) := by
  have hufg : Genesis.unit_factor (some "MiniX") = 1000 := rfl
  have hufx : GenesisMx.unit_factor_of_head_type "MiniX" = 1000 := rfl
  refine ⟨?_, ?_, ?_⟩
  · intro X
    rw [hufx]
    rfl
  · intro X hw parse s hhw hp
    rw [hufx]
    simp [GenesisMx.power_setpoint_mw, GenesisMx.send_read_command, hhw, hp]
  · intro X hw parse s hX hhw hs hp
    have hval : Genesis.power_setpoint_set_value X (Genesis.unit_factor (some "MiniX"))
        = X * 1000 := by rw [hufg]; rfl
    rw [hval] at hp
    have hne : X * 1000 ≠ 0 := mul_ne_zero hX (by norm_num)
    rw [hufg]
    simp [Genesis.power_setpoint, Genesis.send_read_float_command, hhw, hs, hp, hne]

/-- C3 witness: writing 500 mW and reading back the native value 1/2
recovers 500 through the genesis_mx getter. -/
theorem c3_witness :
    GenesisMx.power_setpoint_mw hwC3 parseC3 (GenesisMx.unit_factor_of_head_type "MiniX")
      = .ok 500 :=
  c3_unit_roundtrip.2.1 500 hwC3 parseC3 "0.5" rfl (by norm_num [parseC3])

/-- C3 counterexample: in the genesis revision on a MiniX head the setter
hands the native value 5*1000 = 5000 to the write, not 5/1000 as the
claim states. -/
theorem c3_counterexample :
    Genesis.power_setpoint_set_value 5 (Genesis.unit_factor (some "MiniX")) = 5000
    ∧ (5000 : ℚ) ≠ 5 / 1000 := by
  constructor
  · have hufg : Genesis.unit_factor (some "MiniX") = 1000 := rfl
    rw [Genesis.power_setpoint_set_value, hufg]
    norm_num
  · norm_num

/-- C4 (amended): Alarm.from_code tests each enumerated hex value as its
own bitmask, so OVER_CURRENT (0x0003) is decoded exactly when
code AND 3 is nonzero, and from_code 0 is the singleton [NO_FAULT]; the
genesis_mx alarms read returns that singleton on a zero fault code, but
the genesis revision alarms property returns an absent value on a zero
fault code (see the counterexample). -/
theorem c4_alarm_decoding :
    (∀ code : Nat, Alarm.OVER_CURRENT ∈ Alarm.from_code code ↔ code &&& 3 ≠ 0)
    ∧ Alarm.from_code 0 = [Alarm.NO_FAULT]
    ∧ GenesisMx.alarms hwC4 = .ok [Alarm.NO_FAULT] := by
  refine ⟨?_, by decide, rfl⟩
  intro code
  have hmemfilter :
      Alarm.OVER_CURRENT ∈ alarmList.filter (fun fault => code &&& fault.code != 0)
        ↔ code &&& 3 ≠ 0 := by
    rw [List.mem_filter]
    constructor
    · intro h
      simpa [Alarm.code] using h.2
    · intro h
      exact ⟨by decide, by simpa [Alarm.code] using h⟩
  simp only [Alarm.from_code]
  by_cases he : (alarmList.filter (fun fault => code &&& fault.code != 0)).isEmpty
  · rw [if_pos he]
    constructor
    · intro hmem
      exact absurd hmem (by decide)
    · intro hne
      exfalso
      have hm := hmemfilter.mpr hne
      rw [List.isEmpty_iff] at he
      rw [he] at hm
      exact absurd hm (List.not_mem_nil _)
  · rw [if_neg he]
    exact hmemfilter

/-- C4 witness: fault code 0x0003 decodes to a set containing
OVER_CURRENT because 3 AND 3 is nonzero. -/
theorem c4_witness : Alarm.OVER_CURRENT ∈ Alarm.from_code 3 :=
  (c4_alarm_decoding.1 3).mpr (by decide)

/-- C4 counterexample: the genesis revision alarms property treats a zero
fault code as falsy and returns an absent value instead of the singleton
[NO_FAULT]. -/
theorem c4_counterexample :
    Genesis.alarms hwC4 = .ok none
    ∧ (Except.ok none : Except Unit (Option (List Alarm))) ≠ .ok (some [Alarm.NO_FAULT]) :=
  ⟨rfl, by simp⟩

/-- C5 (amended): the unit factor is 1000 exactly for a MiniX head and 1
for Mini00 or any other head type, in both driver revisions; in the
genesis revision every power read divides and every power write
multiplies by it, while in the genesis_mx revision every power read
multiplies and every power write divides by it (the claimed uniform
divide-on-read direction fails there, see the counterexample). -/
theorem c5_unit_factor :
    (∀ t : String, GenesisMx.unit_factor_of_head_type t = if t = "MiniX" then 1000 else 1)
    ∧ (∀ t : String, Genesis.unit_factor (some t) = if t = "MiniX" then 1000 else 1)
    ∧ Genesis.unit_factor none = 1
    ∧ (∀ (hw : Hw) (parse : String → Option ℚ) (uf p : ℚ) (s : String),
        hw "?P" = some s → s ≠ "" → parse s = some p → p ≠ 0 →
        Genesis.power hw parse uf = .ok (some (p / uf)))
    ∧ (∀ value uf : ℚ, Genesis.power_setpoint_set_value value uf = value * uf)
    ∧ (∀ (hw : Hw) (parse : String → Option ℚ) (uf p : ℚ) (s : String),
        hw "?P" = some s → parse (pyStrip s) = some p →
        GenesisMx.power_mw hw parse uf = .ok (p * uf))
    ∧ (∀ value uf : ℚ, GenesisMx.power_mw_set_native value uf = value / uf) := by
  refine ⟨fun t => rfl, ?_, rfl, ?_, fun v uf => rfl, ?_, fun v uf => rfl⟩
  · intro t
    by_cases h1 : t = "MiniX"
    · subst h1; rfl
    · by_cases h2 : t = "Mini00"
      · subst h2; rfl
      · by_cases h3 : t = ""
        · subst h3; rfl
        · have hb1 : (t == "MiniX") = false := by simpa using h1
          have hb2 : (t == "Mini00") = false := by simpa using h2
          simp [Genesis.unit_factor, Genesis.head_type2unit_factor, List.lookup, hb1, hb2, h3,
            h1]
  · intro hw parse uf p s hhw hs hp hpne
    simp [Genesis.power, Genesis.send_read_float_command, hhw, hs, hp, hpne]
  · intro hw parse uf p s hhw hp
    simp [GenesisMx.power_mw, GenesisMx.send_read_float_command, GenesisMx.send_read_command,
      hhw, hp]

/-- C5 witness: a native reading of 2 with factor 1000 gives 2/1000 mW in
the genesis revision and 2000 mW in the genesis_mx revision. -/
theorem c5_witness :
    Genesis.power hwC5 parseC5 1000 = .ok (some (2 / 1000))
    ∧ GenesisMx.power_mw hwC5 parseC5 1000 = .ok 2000 := by
  constructor
  · exact c5_unit_factor.2.2.2.1 hwC5 parseC5 1000 2 "2" rfl (by decide) rfl (by norm_num)
  · have h := c5_unit_factor.2.2.2.2.2.1 hwC5 parseC5 1000 2 "2" rfl rfl
    rw [h]
    norm_num

/-- C5 counterexample: the genesis_mx power read multiplies the native
reading 2 by the factor 1000 (giving 2000), it does not divide by it. -/
theorem c5_counterexample :
    GenesisMx.power_mw hwC5 parseC5 1000 = .ok (2 * 1000) ∧ (2 * 1000 : ℚ) ≠ 2 / 1000 := by
  constructor
  · have hread : GenesisMx.send_read_float_command hwC5 parseC5 "?P" = .ok 2 := rfl
    simp [GenesisMx.power_mw, hread]
  · norm_num

/-- C2 (amended): in the cohrhops revision, when the serial is known and
the raw command fails at the interface level, send_command performs
exactly one handle reinitialization, retries the same command exactly
once when the reinitialization succeeded, and on final failure closes
the handle, evicts the serial mapping (so a later send_command for that
serial goes through discovery) and raises the CommandError -500 carrying
the original command; the lib2 revision performs the same one-shot
reinit-and-retry but neither closes nor evicts on final failure (see the
counterexample). -/
theorem c2_reinit_retry_evict :
    ∀ (σ : Type) (intf : HopsIntf σ) (m : Mgr σ) (serial command : String)
      (h : Nat) (dll1 : σ),
      m.serials.lookup serial = some h →
      intf.sendC m.dll h command = (none, dll1) →
      ((∀ dll2, intf.initOk dll1 h = (false, dll2) →
          Cohrhops.send_command intf m serial command =
            (.error (.cmd command (-500)),
             { m with
                dll := intf.closeH (intf.closeH dll2 h) h,
                serials := dictErase m.serials serial },
             [Ev.send h command, Ev.reinit h, Ev.closeEv h, Ev.closeEv h]))
       ∧ (∀ dll2 resp dll3, intf.initOk dll1 h = (true, dll2) →
            intf.sendC dll2 h command = (some resp, dll3) →
            Cohrhops.send_command intf m serial command =
              (.ok resp, { m with dll := dll3 },
               [Ev.send h command, Ev.reinit h, Ev.send h command]))
       ∧ (∀ dll2 dll3, intf.initOk dll1 h = (true, dll2) →
            intf.sendC dll2 h command = (none, dll3) →
            Cohrhops.send_command intf m serial command =
              (.error (.cmd command (-500)),
               { m with
                  dll := intf.closeH dll3 h,
                  serials := dictErase m.serials serial },
               [Ev.send h command, Ev.reinit h, Ev.send h command, Ev.closeEv h]))
       ∧ (dictErase m.serials serial).lookup serial = none) := by
  intro σ intf m serial command h dll1 hlk hsend
  refine ⟨?_, ?_, ?_, dictErase_lookup _ _⟩
  · intro dll2 hinit
    simp [Cohrhops.send_command, Cohrhops.send_raw, Cohrhops.reinit_device, hlk, hsend, hinit]
  · intro dll2 resp dll3 hinit hretry
    simp [Cohrhops.send_command, Cohrhops.send_raw, Cohrhops.reinit_device, hlk, hsend, hinit,
      hretry]
  · intro dll2 dll3 hinit hretry
    simp [Cohrhops.send_command, Cohrhops.send_raw, Cohrhops.reinit_device, hlk, hsend, hinit,
      hretry]

/-- C2 witness: on a DLL where every raw send fails and reinitialization
succeeds, the known serial A1 gets one reinit, one retry, and the -500
CommandError with its mapping evicted. -/
theorem c2_witness :
    Cohrhops.send_command intfC2 mgrC2 "A1" "?P" =
      (.error (.cmd "?P" (-500)),
       { dll := 2, slots := [], connLen := 0, serials := [] },
       [Ev.send 5 "?P", Ev.reinit 5, Ev.send 5 "?P", Ev.closeEv 5]) := by
  have h := (c2_reinit_retry_evict Nat intfC2 mgrC2 "A1" "?P" 5 1 rfl rfl).2.2.1 1 2 rfl rfl
  simpa [intfC2, mgrC2, dictErase] using h

/-- C2 counterexample: in the lib2 revision the same double failure
raises the -500 CommandError but the serial-to-handle mapping survives,
so the claimed removal does not happen. -/
theorem c2_counterexample :
    (Lib2.send_command intfC2 mgrC2 "A1" "?P").1 = .error (.cmd "?P" (-500))
    ∧ ((Lib2.send_command intfC2 mgrC2 "A1" "?P").2.1).serials = [("A1", 5)]
    ∧ ([("A1", 5)] : List (String × Nat)) ≠ [] :=
  ⟨rfl, rfl, by simp⟩

/-- C6: for a serial with no entry in the serial-to-handle map,
send_command triggers exactly one discovery attempt (one CheckForDevices
call appears in the trace), and when that discovery completes with the
serial still unknown it fails with the CommandError -404 carrying the
command without having sent that command to any handle. -/
theorem c6_unknown_serial_discovery :
    ∀ (σ : Type) (intf : HopsIntf σ) (m : Mgr σ) (serial command : String),
      m.serials.lookup serial = none →
      ((Cohrhops.send_command intf m serial command).2.2.count Ev.check = 1)
      ∧ (∀ r m1 t1, Cohrhops.discover intf m = (.ok r, m1, t1) →
          m1.serials.lookup serial = none →
          Cohrhops.send_command intf m serial command
            = (.error (.cmd command (-404)), m1, t1)
          ∧ (command ≠ "?HID" → ∀ h2, Ev.send h2 command ∉ t1)) := by
  intro σ intf m serial command hlk
  obtain ⟨t, htr, htame⟩ := discover_trace_tame intf m
  rcases hd : Cohrhops.discover intf m with ⟨dres, m1, t1⟩
  have ht1 : t1 = Ev.check :: t := by rw [hd] at htr; exact htr
  have hcnt : t1.count Ev.check = 1 := by
    rw [ht1]
    simp [List.count_cons, count_check_of_tame htame]
  constructor
  · cases dres with
    | error e =>
      simp [Cohrhops.send_command, hlk, hd, hcnt]
    | ok r =>
      cases hlk1 : m1.serials.lookup serial with
      | none =>
        simp [Cohrhops.send_command, hlk, hd, hlk1, hcnt]
      | some h =>
        rcases hs1 : intf.sendC m1.dll h command with ⟨r1, dll1⟩
        cases r1 with
        | some resp =>
          simp [Cohrhops.send_command, Cohrhops.send_raw, hlk, hd, hlk1, hs1,
            List.count_append, hcnt]
        | none =>
          rcases hini : intf.initOk dll1 h with ⟨ok, dll2⟩
          cases ok with
          | false =>
            simp [Cohrhops.send_command, Cohrhops.send_raw, Cohrhops.reinit_device, hlk, hd,
              hlk1, hs1, hini, List.count_append, hcnt]
          | true =>
            rcases hs2 : intf.sendC dll2 h command with ⟨r2, dll3⟩
            cases r2 with
            | some resp =>
              simp [Cohrhops.send_command, Cohrhops.send_raw, Cohrhops.reinit_device, hlk, hd,
                hlk1, hs1, hini, hs2, List.count_append, hcnt]
            | none =>
              simp [Cohrhops.send_command, Cohrhops.send_raw, Cohrhops.reinit_device, hlk, hd,
                hlk1, hs1, hini, hs2, List.count_append, hcnt]
  · intro r m1x t1x hdx hlk1
    obtain ⟨hdres, hm1, ht1x⟩ : dres = .ok r ∧ m1 = m1x ∧ t1 = t1x := by
      simpa [Prod.ext_iff] using hdx
    subst hdres; subst hm1; subst ht1x
    constructor
    · simp [Cohrhops.send_command, hlk, hd, hlk1]
    · intro hcmd h2 hmem
      rw [ht1] at hmem
      rcases List.mem_cons.mp hmem with hx | hx
      · exact Ev.noConfusion hx
      · exact send_notin_of_tame htame hcmd hx

/-- C6 witness: a manager with no serials discovers the single device B2
on handle 7; the unknown serial A1 then fails with -404 and the command
?P was never sent. -/
theorem c6_witness :
    Cohrhops.send_command intfC6 mgrC6 "A1" "?P" =
      (.error (.cmd "?P" (-404)),
       { dll := 0, slots := [7], connLen := 1, serials := [("B2", 7)] },
       [Ev.check, Ev.send 7 "?HID"])
    ∧ (∀ h2, Ev.send h2 "?P" ∉ [Ev.check, Ev.send 7 "?HID"]) := by
  have h := (c6_unknown_serial_discovery Nat intfC6 mgrC6 "A1" "?P" rfl).2 ["B2"]
    { dll := 0, slots := [7], connLen := 1, serials := [("B2", 7)] }
    [Ev.check, Ev.send 7 "?HID"] rfl rfl
  exact ⟨h.1, h.2 (by decide)⟩

/-- C8 (amended): close() issues a DLL close for every slot of the fixed
connection array (hence releases every known handle) and is idempotent
in the sense that a second call raises nothing and performs the same
closes; it leaves the manager state untouched, so the handle table and
the serial map are NOT emptied by it (see the counterexample). -/
theorem c8_close_idempotent_no_eviction :
    ∀ (σ : Type) (intf : HopsIntf σ) (m : Mgr σ),
      ((Cohrhops.close intf m).1.serials = m.serials)
      ∧ ((Cohrhops.close intf m).1.slots = m.slots)
      ∧ ((Cohrhops.close intf m).1.connLen = m.connLen)
      ∧ ((Cohrhops.close intf m).2 = m.slots.map Ev.closeEv)
      ∧ ((Cohrhops.close intf (Cohrhops.close intf m).1).1.serials = m.serials)
      ∧ ((Cohrhops.close intf (Cohrhops.close intf m).1).2 = m.slots.map Ev.closeEv) :=
  fun _ _ _ => ⟨rfl, rfl, rfl, rfl, rfl, rfl⟩

/-- C8 counterexample: after close() (and after a second close()) the
manager still holds its serial mapping and its connection count, so the
handle table is not empty as the claim states. -/
theorem c8_counterexample :
    ((Cohrhops.close intfC8 mgrC8).1.serials = [("A1", 5)])
    ∧ ((Cohrhops.close intfC8 mgrC8).1.connLen = 1)
    ∧ ((Cohrhops.close intfC8 (Cohrhops.close intfC8 mgrC8).1).1.serials = [("A1", 5)])
    ∧ ([("A1", 5)] : List (String × Nat)) ≠ [] :=
  ⟨rfl, rfl, rfl, by simp⟩

end CoherentLasers
